import Mathlib

/-!
Shallow embedding of the core of the ai-note-summarizer client:
the asynchronous summarization orchestrator (`summariesApi.generateWithPolling`),
the identity bootstrap (`initializeUser` from the hooks module), and the
notes listing cache (`notesCache`).  Network calls and timers are modelled by
explicit environments (the submit response, a function from poll-attempt index
to job-status response, remote lookup/create results); the progress callback is
modelled as a function that either returns normally or throws a value.
JavaScript truthiness/defaulting semantics (`x || d`, `if (!x)`) are embedded
explicitly.
-/

namespace AiNotes

/-- JS truthiness of an optional string (`null` and `""` are falsy). -/
def jsTruthyStr : Option String → Bool
  | none => false
  | some s => !(s = "")

/-- JS `x || d` for an optional string: `null` and `""` fall back to `d`. -/
def jsOrStr (o : Option String) (d : String) : String :=
  match o with
  | none => d
  | some s => if s = "" then d else s

/-- JS `x || d` for an optional integer: `null`/`undefined` and `0` fall back to `d`. -/
def jsOrInt (o : Option Int) (d : Int) : Int :=
  match o with
  | none => d
  | some n => if n = 0 then d else n

/-- JS `x || d` for an optional rational number. -/
def jsOrRat (o : Option ℚ) (d : ℚ) : ℚ :=
  match o with
  | none => d
  | some q => if q = 0 then d else q

/-- JS `Math.round`: half-up rounding, `round q = floor (q + 1/2)`, computed
on the numerator and (positive) denominator:
`q + 1/2 = (2*num + den) / (2*den)`, whose floor is the floor division of the
numerator by the denominator. -/
def jsRound (q : ℚ) : ℤ :=
  Int.fdiv (2 * q.num + Int.ofNat q.den) (2 * Int.ofNat q.den)

/-- The wire-level job status enum of `AsyncJobResponse.status`. -/
inductive JobStatus
  | pending
  | processing
  | completed
  | failed
deriving DecidableEq

/-- The literal wire string of a `JobStatus`. -/
def JobStatus.toStr : JobStatus → String
  | JobStatus.pending => "pending"
  | JobStatus.processing => "processing"
  | JobStatus.completed => "completed"
  | JobStatus.failed => "failed"

/-- The optional `summary` object carried by an `AsyncJobResponse`
(fields as in the TS interface; optional fields are `Option`). -/
structure SummaryPayload where
  id : Int
  content : String
  summary_type : String
  summary_length : String
  summary_style : Option String
  ai_provider : Option String
  ai_model : Option String
  generation_time_ms : Option Int
  token_count : Option Int
  compression_ratio : Option ℚ
  created_at : Option String
deriving DecidableEq

/-- The wire shape returned by both the submit-async endpoint and the
job-status endpoint. -/
structure AsyncJobResponse where
  job_id : Option String
  status : JobStatus
  progress : ℚ
  cached : Option Bool
  summary : Option SummaryPayload
  error : Option String
deriving DecidableEq

/-- The fully-populated `Summary` value resolved by the orchestrator. -/
structure Summary where
  id : Int
  note_id : Int
  content : String
  summary_type : String
  summary_length : String
  ai_provider : String
  ai_model : String
  generation_time_ms : Int
  token_count : Int
  compression_ratio : ℚ
  created_at : String
deriving DecidableEq

/-- The normalization applied by `generateWithPolling` when building a
`Summary` from a wire payload: `||`-defaulting of provider, model
(`modelDefault` is `"cached"` on the cache-hit path and `"unknown"` on the
polling path), numeric metrics, and timestamp (`now` stands for
`new Date().toISOString()`). -/
def normalizeSummary (noteId : Int) (modelDefault : String) (now : String)
    (s : SummaryPayload) : Summary :=
  { id := s.id
    note_id := noteId
    content := s.content
    summary_type := s.summary_type
    summary_length := s.summary_length
    ai_provider := jsOrStr s.ai_provider "unknown"
    ai_model := jsOrStr s.ai_model modelDefault
    generation_time_ms := jsOrInt s.generation_time_ms 0
    token_count := jsOrInt s.token_count 0
    compression_ratio := jsOrRat s.compression_ratio 0
    created_at := jsOrStr s.created_at now }

/-- The progress message computed for each poll response:
`"Processing... (<rounded>%)"` for `processing`, otherwise the status string. -/
def progressMessage (r : AsyncJobResponse) : String :=
  if r.status = JobStatus.processing then
    "Processing... (" ++ toString (jsRound r.progress) ++ "%)"
  else r.status.toStr

/-- One poll-body decision of `generateWithPolling`:
`completed` with a summary resolves, `failed` throws
(`status.error || "Summary generation failed"`), anything else
(including `completed` without a summary) continues polling. -/
def pollStep (noteId : Int) (now : String) (st : AsyncJobResponse) :
    Option (Except String Summary) :=
  match st.status, st.summary with
  | JobStatus.completed, some p =>
      some (Except.ok (normalizeSummary noteId "unknown" now p))
  | JobStatus.failed, _ =>
      some (Except.error (jsOrStr st.error "Summary generation failed"))
  | _, _ => none

deriving instance DecidableEq for Except

/-- The observable trace of one `generateWithPolling` run: the `onProgress`
invocations in order, the number of job-status calls made, and the outcome
(resolved `Summary` or thrown error message). -/
structure RunTrace where
  events : List (String × String)
  pollCalls : Nat
  outcome : Except String Summary
deriving DecidableEq

/-- The polling loop of `generateWithPolling` (`for attempt in 0..maxAttempts`):
each iteration waits, queries job status (`polls attempt`), invokes the
callback (a thrown callback value — `cb` returning `some e` — propagates,
as the source has no guard around `onProgress`), then inspects the status.
`fuel` is the number of attempts left; exhaustion throws the timeout error. -/
def pollLoop (noteId : Int) (cb : String → String → Option String)
    (polls : Nat → AsyncJobResponse) (now : String) :
    Nat → Nat → List (String × String) → RunTrace
  | 0, attempt, acc => ⟨acc.reverse, attempt, Except.error "Summary generation timed out"⟩
  | fuel + 1, attempt, acc =>
    let st := polls attempt
    let ev : String × String := (st.status.toStr, progressMessage st)
    match cb ev.1 ev.2 with
    | some e => ⟨(ev :: acc).reverse, attempt + 1, Except.error e⟩
    | none =>
      match pollStep noteId now st with
      | some out => ⟨(ev :: acc).reverse, attempt + 1, out⟩
      | none => pollLoop noteId cb polls now fuel (attempt + 1) (ev :: acc)

/-- `maxAttempts` of the polling loop. -/
def maxAttempts : Nat := 180

/-- `API_CONFIG.POLL_INTERVAL || 2000`, in milliseconds (timing only; it does
not affect the observable trace). -/
def pollIntervalMs : Nat := 2000

/-- Shallow embedding of `summariesApi.generateWithPolling`:
emit the initial `pending` event, inspect the submit response (`submit`) for a
cache hit (`job.cached && job.summary`), otherwise check `job.job_id`
truthiness and enter the polling loop against `polls`. -/
def generateWithPolling (noteId : Int) (cb : String → String → Option String)
    (submit : AsyncJobResponse) (polls : Nat → AsyncJobResponse)
    (now : String) : RunTrace :=
  let ev0 : String × String := ("pending", "Starting summary job...")
  match cb ev0.1 ev0.2 with
  | some e => ⟨[ev0], 0, Except.error e⟩
  | none =>
    match submit.cached, submit.summary with
    | some true, some p =>
      let ev1 : String × String := ("completed", "Using cached summary")
      match cb ev1.1 ev1.2 with
      | some e => ⟨[ev0, ev1], 0, Except.error e⟩
      | none => ⟨[ev0, ev1], 0, Except.ok (normalizeSummary noteId "cached" now p)⟩
    | _, _ =>
      if jsTruthyStr submit.job_id then
        pollLoop noteId cb polls now maxAttempts 0 [ev0]
      else
        ⟨[ev0], 0, Except.error "No job ID returned"⟩

/-- A job-status response from which the loop body neither resolves nor
throws: `pending`, `processing`, or `completed` without a summary payload. -/
def nonTerminalResp (r : AsyncJobResponse) : Prop :=
  r.status = JobStatus.pending ∨ r.status = JobStatus.processing ∨
    (r.status = JobStatus.completed ∧ r.summary = none)

/-! ## Identity bootstrap (`useUser().initializeUser` in the hooks module) -/

/-- The identity payload returned by the users endpoints; the bootstrap code
only inspects `guest_id`, the rest rides along. -/
structure User where
  id : Int
  guest_id : Option String
  display_name : Option String
  email : Option String
  is_guest : Bool
  created_at : String
deriving DecidableEq

/-- The persisted local state the bootstrap reads and writes:
the full identity blob (`userStorage`) and the guest token (`guestStorage`). -/
structure BootStorage where
  user_data : Option User
  guest_id : Option String
deriving DecidableEq

/-- The remote environment of one bootstrap run: the result of
`api.users.getByGuestId` per token and of `api.users.create` (`Except.error`
carries the `ApiServiceError` detail). -/
structure BootEnv where
  getByGuestId : String → Except String User
  createGuest : Except String User

/-- The observable result of one `initializeUser` run: the identity set
(`none` when the run failed), the error surfaced, the persisted state after
the run, and the number of network calls made. -/
structure BootResult where
  user : Option User
  error : Option String
  store : BootStorage
  netCalls : Nat
deriving DecidableEq

/-- The `api.users.create({ is_guest: true })` tail of `initializeUser`:
on success, persist the guest token when truthy (`if (newUser.guest_id)`),
persist the identity, and return it; on failure, surface the error detail.
`calls` counts network calls already made. -/
def createNewGuest (env : BootEnv) (s : BootStorage) (calls : Nat) : BootResult :=
  match env.createGuest with
  | Except.ok u =>
    ⟨some u, none,
      { user_data := some u,
        guest_id := if jsTruthyStr u.guest_id then u.guest_id else s.guest_id },
      calls + 1⟩
  | Except.error d => ⟨none, some d, s, calls + 1⟩

/-- Shallow embedding of `initializeUser`: return the persisted identity if
present (no network); else try lookup by persisted guest token, persisting
and returning on success and absorbing any failure; else (or on lookup
failure) create a fresh guest identity. -/
def initializeUser (env : BootEnv) (s : BootStorage) : BootResult :=
  match s.user_data with
  | some u => ⟨some u, none, s, 0⟩
  | none =>
    match s.guest_id with
    | some gid =>
      match env.getByGuestId gid with
      | Except.ok u => ⟨some u, none, { s with user_data := some u }, 1⟩
      | Except.error _ => createNewGuest env s 1
    | none => createNewGuest env s 0

/-! ## Notes listing cache (`notesCache`) -/

/-- The 5-minute freshness window, in milliseconds (`5 * 60 * 1000`). -/
def freshWindowMs : Int := 5 * 60 * 1000

/-- `notesCache.setNotes`: replace the stored blob with the items and the
current timestamp. -/
def setNotes {α : Type} (notes : List α) (now : Int) : Option (List α × Int) :=
  some (notes, now)

/-- `notesCache.getNotes`: the stored items while
`now - timestamp < 5 * 60 * 1000`, else the empty list; an absent (or
unparsable, i.e. `none`) blob also yields the empty list.  Total, hence the
operation never throws. -/
def getNotes {α : Type} (store : Option (List α × Int)) (now : Int) : List α :=
  match store with
  | some (notes, ts) => if now - ts < freshWindowMs then notes else []
  | none => []

/-! ## Concrete example inputs used by witnesses and counterexamples -/

/-- A callback that always returns normally. -/
def benignCb : String → String → Option String := fun _ _ => none

/-- A callback that throws on every invocation. -/
def throwingCb : String → String → Option String := fun _ _ => some "callback boom"

/-- A summary payload with every optional field omitted. -/
def bareSummary : SummaryPayload :=
  ⟨7, "hello", "summary", "medium", none, none, none, none, none, none, none⟩

/-- A submit-async response that is a cache hit carrying `bareSummary`. -/
def cachedSubmit : AsyncJobResponse :=
  ⟨none, JobStatus.completed, 100, some true, some bareSummary, none⟩

/-- A non-cached submit-async response carrying job id `"job-1"`. -/
def plainSubmit : AsyncJobResponse :=
  ⟨some "job-1", JobStatus.pending, 0, some false, none, none⟩

/-- A non-cached submit-async response with no job id. -/
def noIdSubmit : AsyncJobResponse :=
  ⟨none, JobStatus.pending, 0, none, none, none⟩

/-- A `pending` job-status response. -/
def pendingResp : AsyncJobResponse :=
  ⟨some "job-1", JobStatus.pending, 0, none, none, none⟩

/-- A `processing` job-status response at the given percentage. -/
def processingResp (pct : ℚ) : AsyncJobResponse :=
  ⟨some "job-1", JobStatus.processing, pct, none, none, none⟩

/-- A `completed` job-status response carrying `bareSummary`. -/
def completedResp : AsyncJobResponse :=
  ⟨some "job-1", JobStatus.completed, 100, none, some bareSummary, none⟩

/-- A `completed` job-status response with no summary payload. -/
def completedNoResult : AsyncJobResponse :=
  ⟨some "job-1", JobStatus.completed, 100, none, none, none⟩

/-- A `failed` job-status response with no error field. -/
def failedRespNoMsg : AsyncJobResponse :=
  ⟨some "job-1", JobStatus.failed, 0, none, none, none⟩

/-- A `failed` job-status response with `error = "boom"`. -/
def failedRespBoom : AsyncJobResponse :=
  ⟨some "job-1", JobStatus.failed, 0, none, none, some "boom"⟩

/-- A concrete persisted identity. -/
def u0 : User := ⟨1, some "tok", none, none, true, "2024-01-01"⟩

/-- A freshly created guest identity carrying guest token "newtok". -/
def uNew : User := ⟨2, some "newtok", none, none, true, "2024-06-01"⟩

/-- A remote environment whose token lookup always fails and whose creation
returns `uNew`. -/
def envFresh : BootEnv :=
  ⟨fun _ => Except.error "not found", Except.ok uNew⟩

/-- A remote environment that is never reached in the stored-identity path. -/
def envStored : BootEnv :=
  ⟨fun _ => Except.error "not found", Except.ok u0⟩

/-- A storage state holding a persisted full identity. -/
def storedState : BootStorage := ⟨some u0, some "tok"⟩

/-- A storage state with no identity but a stale guest token. -/
def staleState : BootStorage := ⟨none, some "oldtok"⟩

/-- The poll sequence `[pending, processing(30%), processing(70%), completed]`. -/
def seqC2 : Nat → AsyncJobResponse := fun n =>
  match n with
  | 0 => pendingResp
  | 1 => processingResp 30
  | 2 => processingResp 70
  | _ => completedResp

/-! ## Helper lemmas about the polling loop -/

theorem pollStep_eq_none (noteId : Int) (now : String) (r : AsyncJobResponse)
    (h : nonTerminalResp r) : pollStep noteId now r = none := by
  obtain ⟨jid, status, prog, cached, summ, err⟩ := r
  rcases h with h | h | ⟨h, hs⟩ <;> simp_all [pollStep]

theorem pollStep_failed (noteId : Int) (now : String) (r : AsyncJobResponse)
    (h : r.status = JobStatus.failed) :
    pollStep noteId now r =
      some (Except.error (jsOrStr r.error "Summary generation failed")) := by
  obtain ⟨jid, status, prog, cached, summ, err⟩ := r
  simp_all [pollStep]

theorem pollStep_completed (noteId : Int) (now : String) (r : AsyncJobResponse)
    (p : SummaryPayload) (h1 : r.status = JobStatus.completed)
    (h2 : r.summary = some p) :
    pollStep noteId now r =
      some (Except.ok (normalizeSummary noteId "unknown" now p)) := by
  obtain ⟨jid, status, prog, cached, summ, err⟩ := r
  simp_all [pollStep]

theorem pollLoop_step (noteId : Int) (cb : String → String → Option String)
    (polls : Nat → AsyncJobResponse) (now : String) (fuel attempt : Nat)
    (acc : List (String × String))
    (hcb : cb (polls attempt).status.toStr (progressMessage (polls attempt)) = none)
    (hstep : pollStep noteId now (polls attempt) = none) :
    pollLoop noteId cb polls now (fuel + 1) attempt acc =
      pollLoop noteId cb polls now fuel (attempt + 1)
        (((polls attempt).status.toStr, progressMessage (polls attempt)) :: acc) := by
  simp only [pollLoop, hcb, hstep]

theorem pollLoop_stop (noteId : Int) (cb : String → String → Option String)
    (polls : Nat → AsyncJobResponse) (now : String) (fuel attempt : Nat)
    (acc : List (String × String)) (out : Except String Summary)
    (hcb : cb (polls attempt).status.toStr (progressMessage (polls attempt)) = none)
    (hstep : pollStep noteId now (polls attempt) = some out) :
    pollLoop noteId cb polls now (fuel + 1) attempt acc =
      ⟨((((polls attempt).status.toStr, progressMessage (polls attempt))) :: acc).reverse,
        attempt + 1, out⟩ := by
  simp only [pollLoop, hcb, hstep]

theorem pollLoop_timeout (noteId : Int) (cb : String → String → Option String)
    (polls : Nat → AsyncJobResponse) (now : String)
    (hcb : ∀ s m, cb s m = none) :
    ∀ (fuel attempt : Nat) (acc : List (String × String)),
      (∀ n, attempt ≤ n → n < attempt + fuel → pollStep noteId now (polls n) = none) →
      (pollLoop noteId cb polls now fuel attempt acc).pollCalls = attempt + fuel ∧
      (pollLoop noteId cb polls now fuel attempt acc).outcome =
        Except.error "Summary generation timed out" := by
  intro fuel
  induction fuel with
  | zero => intro attempt acc _; exact ⟨rfl, rfl⟩
  | succ m ih =>
    intro attempt acc h
    rw [pollLoop_step noteId cb polls now m attempt acc (hcb _ _)
      (h attempt le_rfl (by omega))]
    have := ih (attempt + 1) (((polls attempt).status.toStr,
      progressMessage (polls attempt)) :: acc)
      (fun n h1 h2 => h n (by omega) (by omega))
    exact ⟨by rw [this.1]; omega, this.2⟩

theorem pollLoop_first_terminal (noteId : Int)
    (cb : String → String → Option String) (polls : Nat → AsyncJobResponse)
    (now : String) (hcb : ∀ s m, cb s m = none) :
    ∀ (k fuel attempt : Nat) (acc : List (String × String))
      (out : Except String Summary), k < fuel →
      (∀ n, attempt ≤ n → n < attempt + k → pollStep noteId now (polls n) = none) →
      pollStep noteId now (polls (attempt + k)) = some out →
      (pollLoop noteId cb polls now fuel attempt acc).pollCalls = attempt + k + 1 ∧
      (pollLoop noteId cb polls now fuel attempt acc).outcome = out := by
  intro k
  induction k with
  | zero =>
    intro fuel attempt acc out hk _ hterm
    obtain ⟨m, rfl⟩ : ∃ m, fuel = m + 1 := ⟨fuel - 1, by omega⟩
    rw [pollLoop_stop noteId cb polls now m attempt acc out (hcb _ _)
      (by simpa using hterm)]
    exact ⟨rfl, rfl⟩
  | succ j ih =>
    intro fuel attempt acc out hk hpre hterm
    obtain ⟨m, rfl⟩ : ∃ m, fuel = m + 1 := ⟨fuel - 1, by omega⟩
    rw [pollLoop_step noteId cb polls now m attempt acc (hcb _ _)
      (hpre attempt le_rfl (by omega))]
    have := ih m (attempt + 1) (((polls attempt).status.toStr,
      progressMessage (polls attempt)) :: acc) out (by omega)
      (fun n h1 h2 => hpre n (by omega) (by omega))
      (by have : attempt + 1 + j = attempt + (j + 1) := by omega
          rw [this]; exact hterm)
    exact ⟨by rw [this.1]; omega, this.2⟩

theorem generate_eq_pollLoop (noteId : Int)
    (cb : String → String → Option String) (submit : AsyncJobResponse)
    (polls : Nat → AsyncJobResponse) (now : String)
    (h0 : cb "pending" "Starting summary job..." = none)
    (hch : submit.cached = some true → submit.summary = none)
    (hjob : jsTruthyStr submit.job_id = true) :
    generateWithPolling noteId cb submit polls now =
      pollLoop noteId cb polls now maxAttempts 0
        [("pending", "Starting summary job...")] := by
  unfold generateWithPolling
  simp only [h0]
  rcases hc : submit.cached with _ | b
  · simp only [hjob, if_true]
  · rcases b with _ | _
    · simp only [hjob, if_true]
    · rw [hch hc]
      simp only [hjob, if_true]

/-! ## Claim theorems -/

/-- C1: a submit-async response with `cached = true` and a summary payload
makes `generateWithPolling` resolve immediately — the trace records zero
job-status calls and the normalized cached result — and the normalization
defaults `ai_model` to `"cached"` when the payload omits it. -/
theorem cache_hit_short_circuit (noteId : Int)
    (cb : String → String → Option String) (submit : AsyncJobResponse)
    (polls : Nat → AsyncJobResponse) (now : String) (p : SummaryPayload)
    (h0 : cb "pending" "Starting summary job..." = none)
    (h1 : cb "completed" "Using cached summary" = none)
    (hc : submit.cached = some true) (hs : submit.summary = some p) :
    generateWithPolling noteId cb submit polls now =
      ⟨[("pending", "Starting summary job..."), ("completed", "Using cached summary")],
        0, Except.ok (normalizeSummary noteId "cached" now p)⟩ ∧
    (p.ai_model = none → (normalizeSummary noteId "cached" now p).ai_model = "cached") := by
  constructor
  · unfold generateWithPolling
    simp only [h0, hc, hs, h1]
  · intro hm
    simp [normalizeSummary, jsOrStr, hm]

/-- Witness for C1 at a concrete cache-hit response whose payload omits
`ai_model`. -/
theorem cache_hit_short_circuit_witness :
    generateWithPolling 5 benignCb cachedSubmit seqC2 "NOW" =
      ⟨[("pending", "Starting summary job..."), ("completed", "Using cached summary")],
        0, Except.ok (normalizeSummary 5 "cached" "NOW" bareSummary)⟩ ∧
    (normalizeSummary 5 "cached" "NOW" bareSummary).ai_model = "cached" := by
  have h := cache_hit_short_circuit 5 benignCb cachedSubmit seqC2 "NOW" bareSummary
    rfl rfl rfl rfl
  exact ⟨h.1, h.2 rfl⟩

/-- C2 counterexample: on the poll sequence
`[pending, processing(30%), processing(70%), completed]` the callback is not
invoked exactly 4 times — the initial `pending` ("Starting summary job...")
event makes it 5. -/
theorem polling_progress_counterexample :
    (generateWithPolling 1 benignCb plainSubmit seqC2 "NOW").events.length ≠ 4 := by
  decide

/-- C2 (amended): on the poll sequence
`[pending, processing(30%), processing(70%), completed]` the callback is
invoked exactly 5 times — an initial `pending` ("Starting summary job...")
event followed by the four poll events in order — and the run resolves with
the missing-field normalization of the final payload (provider and model
`"unknown"`, numeric metrics `0`, timestamp `now`). -/
theorem polling_progress_events :
    generateWithPolling 1 benignCb plainSubmit seqC2 "NOW" =
      ⟨[("pending", "Starting summary job..."), ("pending", "pending"),
        ("processing", "Processing... (30%)"), ("processing", "Processing... (70%)"),
        ("completed", "completed")], 4,
        Except.ok (normalizeSummary 1 "unknown" "NOW" bareSummary)⟩ ∧
    normalizeSummary 1 "unknown" "NOW" bareSummary =
      ⟨7, 1, "hello", "summary", "medium", "unknown", "unknown", 0, 0, 0, "NOW"⟩ := by
  constructor
  · decide
  · decide

/-- C3: a poll sequence that never reaches a terminal response (`pending`,
`processing`, or `completed` without a payload, at every attempt) makes
`generateWithPolling` fail with "Summary generation timed out" after exactly
180 job-status calls. -/
theorem timeout_after_max_attempts (noteId : Int)
    (cb : String → String → Option String) (submit : AsyncJobResponse)
    (polls : Nat → AsyncJobResponse) (now : String)
    (hcb : ∀ s m, cb s m = none)
    (hch : submit.cached = some true → submit.summary = none)
    (hjob : jsTruthyStr submit.job_id = true)
    (hpolls : ∀ n, n < maxAttempts → nonTerminalResp (polls n)) :
    (generateWithPolling noteId cb submit polls now).pollCalls = 180 ∧
    (generateWithPolling noteId cb submit polls now).outcome =
      Except.error "Summary generation timed out" := by
  rw [generate_eq_pollLoop noteId cb submit polls now (hcb _ _) hch hjob]
  have h := pollLoop_timeout noteId cb polls now hcb maxAttempts 0
    [("pending", "Starting summary job...")]
    (fun n _ h2 => pollStep_eq_none noteId now (polls n)
      (hpolls n (by simpa using h2)))
  exact ⟨h.1, h.2⟩

/-- Witness for C3: an always-`pending` poll sequence times out after exactly
180 polls. -/
theorem timeout_after_max_attempts_witness :
    (generateWithPolling 1 benignCb plainSubmit (fun _ => pendingResp) "NOW").pollCalls = 180 ∧
    (generateWithPolling 1 benignCb plainSubmit (fun _ => pendingResp) "NOW").outcome =
      Except.error "Summary generation timed out" :=
  timeout_after_max_attempts 1 benignCb plainSubmit (fun _ => pendingResp) "NOW"
    (fun _ _ => rfl) (by decide) (by decide) (fun _ _ => Or.inl rfl)

/-- C4: when the polls before attempt `k` are non-terminal and the `k`-th
job-status response is `failed`, `generateWithPolling` fails right there —
`k + 1` job-status calls — with the service-supplied error message
(`status.error || "Summary generation failed"`, so the generic message when
the error field is absent). -/
theorem failed_status_propagates (noteId : Int)
    (cb : String → String → Option String) (submit : AsyncJobResponse)
    (polls : Nat → AsyncJobResponse) (now : String) (k : Nat)
    (hcb : ∀ s m, cb s m = none)
    (hch : submit.cached = some true → submit.summary = none)
    (hjob : jsTruthyStr submit.job_id = true)
    (hk : k < maxAttempts)
    (hpre : ∀ n, n < k → nonTerminalResp (polls n))
    (hfail : (polls k).status = JobStatus.failed) :
    (generateWithPolling noteId cb submit polls now).pollCalls = k + 1 ∧
    (generateWithPolling noteId cb submit polls now).outcome =
      Except.error (jsOrStr (polls k).error "Summary generation failed") := by
  rw [generate_eq_pollLoop noteId cb submit polls now (hcb _ _) hch hjob]
  have h := pollLoop_first_terminal noteId cb polls now hcb k maxAttempts 0
    [("pending", "Starting summary job...")]
    (Except.error (jsOrStr (polls k).error "Summary generation failed")) hk
    (fun n _ h2 => pollStep_eq_none noteId now (polls n)
      (hpre n (by simpa using h2)))
    (by simpa using pollStep_failed noteId now (polls k) hfail)
  simpa using h

/-- Witness for C4: a first poll of `failed` with `error = "boom"` fails with
"boom" after one job-status call. -/
theorem failed_status_propagates_witness :
    (generateWithPolling 1 benignCb plainSubmit (fun _ => failedRespBoom) "NOW").pollCalls = 1 ∧
    (generateWithPolling 1 benignCb plainSubmit (fun _ => failedRespBoom) "NOW").outcome =
      Except.error "boom" := by
  have h := failed_status_propagates 1 benignCb plainSubmit (fun _ => failedRespBoom)
    "NOW" 0 (fun _ _ => rfl) (by decide) (by decide) (by decide)
    (fun n hn => absurd hn (by omega)) rfl
  simpa using h

/-- C5 (the code, at the failing input): an `onProgress` callback that throws
aborts `generateWithPolling` — the run rejects with the callback's thrown
value — whereas the same inputs with a non-throwing callback resolve with the
cached summary.  The spec mandates that callback errors must not abort the
state machine; the source invokes `onProgress` with no guard around it. -/
theorem callback_error_aborts_run :
    (generateWithPolling 1 throwingCb cachedSubmit (fun _ => pendingResp) "NOW").outcome =
      Except.error "callback boom" ∧
    (generateWithPolling 1 benignCb cachedSubmit (fun _ => pendingResp) "NOW").outcome =
      Except.ok (normalizeSummary 1 "cached" "NOW" bareSummary) := by
  constructor
  · decide
  · decide

/-- C6: a submit-async response that is not a cache hit and carries no job id
makes `generateWithPolling` fail immediately with "No job ID returned", with
zero job-status calls. -/
theorem no_job_id_fails (noteId : Int)
    (cb : String → String → Option String) (submit : AsyncJobResponse)
    (polls : Nat → AsyncJobResponse) (now : String)
    (h0 : cb "pending" "Starting summary job..." = none)
    (hch : submit.cached = some true → submit.summary = none)
    (hjid : submit.job_id = none) :
    generateWithPolling noteId cb submit polls now =
      ⟨[("pending", "Starting summary job...")], 0,
        Except.error "No job ID returned"⟩ := by
  unfold generateWithPolling
  simp only [h0]
  rcases hc : submit.cached with _ | b
  · simp [hjid, jsTruthyStr]
  · rcases b with _ | _
    · simp [hjid, jsTruthyStr]
    · rw [hch hc]
      simp [hjid, jsTruthyStr]

/-- Witness for C6 at a concrete submit response with no job id and no cache
hit. -/
theorem no_job_id_fails_witness :
    generateWithPolling 1 benignCb noIdSubmit seqC2 "NOW" =
      ⟨[("pending", "Starting summary job...")], 0,
        Except.error "No job ID returned"⟩ :=
  no_job_id_fails 1 benignCb noIdSubmit seqC2 "NOW" rfl (by decide) rfl

theorem initializeUser_of_stored (env : BootEnv) (s : BootStorage) (u : User)
    (h : s.user_data = some u) : initializeUser env s = ⟨some u, none, s, 0⟩ := by
  simp [initializeUser, h]

/-- C7: when a persisted full identity exists, `initializeUser` returns it
with no network call and leaves storage unchanged; consequently a second
bootstrap run after any successful one returns the same identity and makes
zero network calls. -/
theorem bootstrap_stable (env1 env2 : BootEnv) (s : BootStorage) (u : User) :
    (s.user_data = some u → initializeUser env1 s = ⟨some u, none, s, 0⟩) ∧
    ((initializeUser env1 s).user = some u →
      (initializeUser env2 (initializeUser env1 s).store).user = some u ∧
      (initializeUser env2 (initializeUser env1 s).store).netCalls = 0) := by
  constructor
  · intro h
    exact initializeUser_of_stored env1 s u h
  · intro h
    have hst : (initializeUser env1 s).store.user_data = some u := by
      obtain ⟨ud, gid⟩ := s
      rcases ud with _ | v
      · rcases gid with _ | g
        · simp only [initializeUser] at h ⊢
          unfold createNewGuest at h ⊢
          rcases hcg : env1.createGuest with w | w <;> simp_all
        · simp only [initializeUser] at h ⊢
          rcases hlk : env1.getByGuestId g with w | w
          · simp_all
            unfold createNewGuest at h ⊢
            rcases hcg : env1.createGuest with v | v <;> simp_all
          · simp_all
      · simp_all [initializeUser]
    rw [initializeUser_of_stored env2 (initializeUser env1 s).store u hst]
    exact ⟨rfl, rfl⟩

/-- Witness for C7: a storage state holding a persisted identity, bootstrapped
twice. -/
theorem bootstrap_stable_witness :
    initializeUser envStored storedState = ⟨some u0, none, storedState, 0⟩ ∧
    (initializeUser envStored (initializeUser envStored storedState).store).user = some u0 ∧
    (initializeUser envStored (initializeUser envStored storedState).store).netCalls = 0 := by
  have h := bootstrap_stable envStored envStored storedState u0
  exact ⟨h.1 rfl, (h.2 (by decide)).1, (h.2 (by decide)).2⟩

/-- C8: with no persisted identity, a persisted guest token, a failing remote
lookup and a successful remote creation, `initializeUser` surfaces no error,
returns the freshly created identity, persists it, and persists the new guest
token when the created identity carries a (truthy) one. -/
theorem bootstrap_fallback (env : BootEnv) (s : BootStorage) (g e : String)
    (u : User) (hs : s.user_data = none) (hg : s.guest_id = some g)
    (hlook : env.getByGuestId g = Except.error e)
    (hcreate : env.createGuest = Except.ok u) :
    initializeUser env s =
      ⟨some u, none,
        ⟨some u, if jsTruthyStr u.guest_id then u.guest_id else s.guest_id⟩, 2⟩ := by
  simp [initializeUser, hs, hg, hlook, createNewGuest, hcreate]

/-- Witness for C8: a stale guest token whose lookup fails with "not found",
then a created identity carrying guest token "newtok". -/
theorem bootstrap_fallback_witness :
    initializeUser envFresh staleState =
      ⟨some uNew, none, ⟨some uNew, some "newtok"⟩, 2⟩ := by
  rw [bootstrap_fallback envFresh staleState "oldtok" "not found" uNew rfl rfl rfl rfl]
  decide

/-- C9: `setNotes` followed by `getNotes` strictly within the 5-minute
freshness window returns exactly the stored items, and from 5 minutes on
returns the empty list (`getNotes` is a total function, so it never throws). -/
theorem cache_freshness {α : Type} (notes : List α) (t now : Int) :
    (now - t < freshWindowMs → getNotes (setNotes notes t) now = notes) ∧
    (freshWindowMs ≤ now - t → getNotes (setNotes notes t) now = []) := by
  constructor
  · intro h
    simp [getNotes, setNotes, h]
  · intro h
    simp [getNotes, setNotes, not_lt.mpr h]

/-- Witness for C9 at one millisecond before the window and exactly at the
window. -/
theorem cache_freshness_witness :
    getNotes (setNotes ([1, 2] : List ℕ) 0) 299999 = [1, 2] ∧
    getNotes (setNotes ([1, 2] : List ℕ) 0) 300000 = [] :=
  ⟨(cache_freshness [1, 2] 0 299999).1 (by decide),
   (cache_freshness [1, 2] 0 300000).2 (by decide)⟩

/-- C10: a `completed` job-status response without a summary payload is
non-terminal for the loop body, and a sequence of nothing but such responses
ends in "Summary generation timed out" after the full 180 polls rather than
in any protocol-violation error. -/
theorem completed_without_result_keeps_polling (noteId : Int)
    (cb : String → String → Option String) (submit : AsyncJobResponse)
    (polls : Nat → AsyncJobResponse) (now : String)
    (hcb : ∀ s m, cb s m = none)
    (hch : submit.cached = some true → submit.summary = none)
    (hjob : jsTruthyStr submit.job_id = true)
    (hpolls : ∀ n, (polls n).status = JobStatus.completed ∧ (polls n).summary = none) :
    (∀ n, pollStep noteId now (polls n) = none) ∧
    (generateWithPolling noteId cb submit polls now).pollCalls = 180 ∧
    (generateWithPolling noteId cb submit polls now).outcome =
      Except.error "Summary generation timed out" := by
  refine ⟨fun n => pollStep_eq_none noteId now (polls n)
    (Or.inr (Or.inr (hpolls n))), ?_⟩
  rw [generate_eq_pollLoop noteId cb submit polls now (hcb _ _) hch hjob]
  have h := pollLoop_timeout noteId cb polls now hcb maxAttempts 0
    [("pending", "Starting summary job...")]
    (fun n _ _ => pollStep_eq_none noteId now (polls n)
      (Or.inr (Or.inr (hpolls n))))
  exact ⟨h.1, h.2⟩

/-- Witness for C10: an always-`completed`-without-payload poll sequence. -/
theorem completed_without_result_keeps_polling_witness :
    (pollStep 1 "NOW" completedNoResult = none) ∧
    (generateWithPolling 1 benignCb plainSubmit (fun _ => completedNoResult) "NOW").pollCalls = 180 ∧
    (generateWithPolling 1 benignCb plainSubmit (fun _ => completedNoResult) "NOW").outcome =
      Except.error "Summary generation timed out" := by
  have h := completed_without_result_keeps_polling 1 benignCb plainSubmit
    (fun _ => completedNoResult) "NOW" (fun _ _ => rfl) (by decide) (by decide)
    (fun _ => ⟨rfl, rfl⟩)
  exact ⟨h.1 0, h.2.1, h.2.2⟩

end AiNotes
